import Mathlib

/-!
Shallow embedding of `build_software.py`, a multi-target native build
orchestrator.  External processes are modelled as trace events; whether an
invoked process exits with code zero is supplied by an oracle.  Wall-clock
times in progress lines are abstracted away (the `builtLine` event records
that the "Built <soft> in N seconds" line was printed, without the number).
-/

namespace BuildSoftware

/-- A process environment, as an ordered association list of key/value
pairs (modelling a Python `dict`). -/
abbrev Env := List (String × String)

/-- Removal of a key (Python `dict.pop(k, None)`). -/
def popKey (e : Env) (k : String) : Env :=
  e.filter (fun p => p.1 ≠ k)

/-- Assignment `e[k] = v` (any previous binding of `k` is replaced). -/
def setKey (e : Env) (k v : String) : Env :=
  popKey e k ++ [(k, v)]

/-- Lookup of a key in an environment. -/
def lookupEnv : Env → String → Option String
  | [], _ => none
  | p :: e, k => if p.1 = k then some p.2 else lookupEnv e k

/-- Embeds `clean_env` (build_software.py, lines 51-57): copy the ambient
environment, pop `PYTHONPATH`, `LD_LIBRARY_PATH` and `PV_PLUGIN_PATH`, and
force `CMAKE_PREFIX_PATH` to the empty string.  The Python function operates
on `dict(os.environ)`, a fresh copy; here purity is by construction. -/
def clean_env (e : Env) : Env :=
  setKey (popKey (popKey (popKey e "PYTHONPATH") "LD_LIBRARY_PATH") "PV_PLUGIN_PATH")
    "CMAKE_PREFIX_PATH" ""

/-- Which environment a `subprocess` call is started with: the ambient
process environment (no `env=` keyword), `clean_env()`, or `clean_env()`
with `CMAKE_PREFIX_PATH` re-assigned to an install prefix. -/
inductive ProcEnv
  | ambient
  | sanitized
  | sanitizedPrefix (p : String)
deriving DecidableEq

/-- Resolution of a `ProcEnv` tag against the ambient environment. -/
def ProcEnv.resolve : ProcEnv → Env → Env
  | .ambient, e => e
  | .sanitized, e => clean_env e
  | .sanitizedPrefix p, e => setKey (clean_env e) "CMAKE_PREFIX_PATH" p

/-- One external process invocation: argument vector, optional working
directory (`cwd=` keyword), and the environment it is started with. -/
structure Proc where
  args : List String
  cwd : Option String
  env : ProcEnv
deriving DecidableEq

/-- One observable effect of the orchestrator. -/
inductive Event
  | proc (p : Proc)
  | mkdir (d : String)
  | download (url : String)
  | extractAll (archive dest : String)
  | extractMember (archive member : String)
  | copy (src dst : String)
  | replace (src dst : String)
  | removeFile (f : String)
  | removedirs (d : String)
  | buildingLine (soft : String)
  | builtLine (soft : String)
  | msg (s : String)
deriving DecidableEq

/-- Artifact-fetcher events: download and extraction operations. -/
def Event.isFetch : Event → Bool
  | .download _ => true
  | .extractAll _ _ => true
  | .extractMember _ _ => true
  | _ => false

/-- Progress or diagnostic print events. -/
def Event.isLine : Event → Bool
  | .buildingLine _ => true
  | .builtLine _ => true
  | .msg _ => true
  | _ => false

def PERSEUS_URL : String :=
  "https://people.maths.ox.ac.uk/nanda/source/perseus_4_beta.zip"

def JAVAPLEX_URL : String :=
  "https://github.com/appliedtopology/javaplex/files/2196392/javaplex-processing-lib-4.3.4.zip"

/-- Python `url.split("/")[-1]`. -/
def urlBasename (url : String) : String :=
  (url.splitOn "/").getLastD ""

/-- Embeds `download_perseus` (lines 26-34) as its effect trace. -/
def download_perseus : List Event :=
  let perseus_zip := urlBasename PERSEUS_URL
  [Event.download PERSEUS_URL,
   Event.mkdir "perseus",
   Event.extractAll perseus_zip "backends_src/perseus",
   Event.removeFile perseus_zip]

/-- Embeds `download_javaplex` (lines 37-48) as its effect trace. -/
def download_javaplex : List Event :=
  let jplex_zip := urlBasename JAVAPLEX_URL
  [Event.download JAVAPLEX_URL,
   Event.mkdir "javaplex",
   Event.extractMember jplex_zip "javaplex/library/javaplex.jar",
   Event.replace "javaplex/library/javaplex.jar" "backends_src/javaplex.jar",
   Event.removedirs "javaplex/library",
   Event.removeFile jplex_zip]

/-- Embeds `build_paraview` (lines 60-77) as its effect trace: create the
version-keyed build directory, check out the tag, configure with the base
options plus `opts` under the sanitized environment, configure a second time
(the deliberate double-configure), then build the `install` target. -/
def build_paraview (pfx vers : String) (opts : List String) : List Event :=
  let pv := "backends_src/paraview-ttk"
  let builddir := "build_dirs/paraview_" ++ vers
  [Event.mkdir builddir,
   Event.proc ⟨["git", "checkout", vers], some pv, ProcEnv.ambient⟩,
   Event.proc ⟨["cmake"] ++ ["-S", pv] ++ ["-B", builddir]
      ++ ["-DCMAKE_BUILD_TYPE=Release", "-DCMAKE_INSTALL_PREFIX=" ++ pfx]
      ++ opts, none, ProcEnv.sanitized⟩,
   Event.proc ⟨["cmake", builddir], none, ProcEnv.ambient⟩,
   Event.proc ⟨["cmake", "--build", builddir, "--target", "install", "--parallel"],
      none, ProcEnv.ambient⟩]

/-- A per-target build recipe: an effect trace run with `check=True`
semantics, either plain (a failure is fatal) or wrapped in a try/except
that prints a diagnostic and continues (the diamorse branch). -/
inductive Recipe
  | plain (steps : List Event)
  | tryRecover (steps : List Event) (diag : String)
deriving DecidableEq

/-- Whether a recipe catches a non-zero exit of its steps. -/
def Recipe.isRecover : Recipe → Bool
  | .plain _ => false
  | .tryRecover _ _ => true

/-- The steps of a recipe. -/
def Recipe.steps : Recipe → List Event
  | .plain s => s
  | .tryRecover s _ => s

/-- The body of the first `soft == "CubicalRipser_2dim"` branch (line 124):
plain `make` in the source directory. -/
def cubicalRipserFirstBody (soft_src : String) : List Event :=
  [Event.proc ⟨["make"], some soft_src, ProcEnv.ambient⟩]

/-- The body of the second branch guarded by `soft == "CubicalRipser_2dim"`
(lines 125-129): configure and make inside a created build directory. -/
def cubicalRipserSecondBody (builddir : String) : List Event :=
  [Event.mkdir builddir,
   Event.proc ⟨["cmake", ".."], some builddir, ProcEnv.ambient⟩,
   Event.proc ⟨["make"], some builddir, ProcEnv.ambient⟩]

/-- Embeds the per-target `if/elif` dispatch of `main` (lines 117-289),
branch for branch and in source order, including the duplicated
`soft == "CubicalRipser_2dim"` guard.  `cwd` is the value of
`os.getcwd()`. -/
def dispatch (cwd soft : String) : Recipe :=
  if soft = "CubicalRipser_2dim" then
    Recipe.plain (cubicalRipserFirstBody ("backends_src/" ++ soft))
  else if soft = "CubicalRipser_2dim" then
    Recipe.plain (cubicalRipserSecondBody ("build_dirs/" ++ soft))
  else if soft = "perseus" then
    Recipe.plain (download_perseus
      ++ [Event.copy "patches/Makefile.perseus" (("backends_src/" ++ soft) ++ "/Makefile"),
          Event.proc ⟨["make"], some ("backends_src/" ++ soft), ProcEnv.ambient⟩])
  else if soft = "diamorse" then
    Recipe.tryRecover
      [Event.proc ⟨["git", "checkout", "."], some ("backends_src/" ++ soft), ProcEnv.ambient⟩,
       Event.proc ⟨["git", "apply",
          "../../patches/diamorse_0001-Makefile-Target-Python2.patch",
          "../../patches/diamorse_0002-persistence.py-Add-Gudhi-format-output.patch"],
          some ("backends_src/" ++ soft), ProcEnv.ambient⟩,
       Event.proc ⟨["make", "all"], some ("backends_src/" ++ soft), ProcEnv.ambient⟩]
      "Missing cython, python2-numpy to build diamorse"
  else if soft = "Eirene.jl" then
    Recipe.plain
      [Event.proc ⟨["julia", "-e", "using Pkg; Pkg.add(\"Eirene\")"], none,
         ProcEnv.ambient⟩]
  else if soft = "JavaPlex" then
    Recipe.plain (download_javaplex
      ++ [Event.proc ⟨["javac", "-classpath", "backends_src/javaplex.jar",
            "jplex_persistence.java"], none, ProcEnv.ambient⟩])
  else if soft = "gudhi" then
    Recipe.plain
      [Event.mkdir ("build_dirs/" ++ soft),
       Event.proc ⟨["cmake"]
          ++ ["-DWITH_GUDHI_TEST=OFF", "-DWITH_GUDHI_UTILITIES=OFF",
              "-DCMAKE_BUILD_TYPE=Release"]
          ++ ["-S", ("backends_src/" ++ soft)] ++ ["-B", ("build_dirs/" ++ soft)], none, ProcEnv.ambient⟩,
       Event.proc ⟨["cmake", "--build", ("build_dirs/" ++ soft), "--parallel"], none,
          ProcEnv.ambient⟩]
  else if soft = "ripser" then
    Recipe.plain [Event.proc ⟨["make"], some ("backends_src/" ++ soft), ProcEnv.ambient⟩]
  else if soft = "PersistenceCycles" then
    Recipe.plain (build_paraview "build_dirs/install_paraview_v5.6.1" "v5.6.1"
        ["-DPARAVIEW_BUILD_QT_GUI=OFF", "-DVTK_Group_ParaViewRendering=OFF"]
      ++ [Event.proc ⟨["git", "checkout", "."], some ("backends_src/" ++ soft), ProcEnv.ambient⟩,
          Event.proc ⟨["git", "apply",
             "../../patches/PersistenceCycles_0001-Fix-Wreturn-type.patch",
             "../../patches/PersistenceCycles_0003-Output-Diagram-in-Gudhi-format.patch"],
             some ("backends_src/" ++ soft), ProcEnv.ambient⟩,
          Event.mkdir ("build_dirs/" ++ soft),
          Event.proc ⟨["cmake"] ++ ["-S", ("backends_src/" ++ soft) ++ "/ttk-0.9.7"] ++ ["-B", ("build_dirs/" ++ soft)]
             ++ ["-DVTK_DIR=" ++ cwd ++ "/" ++ "build_dirs/install_paraview_v5.6.1" ++ "/lib/cmake/paraview-5.6",
                 "-DCMAKE_BUILD_TYPE=Release",
                 "-DCMAKE_INSTALL_PREFIX=" ++ "build_dirs/install_paraview_v5.6.1",
                 "-DTTK_ENABLE_KAMIKAZE=ON"], none, ProcEnv.sanitizedPrefix "build_dirs/install_paraview_v5.6.1"⟩,
          Event.proc ⟨["cmake", "--build", ("build_dirs/" ++ soft), "--target", "install",
             "--parallel"], none, ProcEnv.ambient⟩])
  else if soft = "DiscreteMorseSandwich" then
    Recipe.plain (build_paraview "build_dirs/install_paraview_v5.10.1" "v5.10.1"
        ["-DPARAVIEW_USE_QT=OFF", "-DVTK_Group_ENABLE_Rendering=NO"]
      ++ [Event.proc ⟨["git", "apply",
             "../../patches/DiscreteMorseSandwich_filters.patch"],
             some ("backends_src/" ++ soft), ProcEnv.ambient⟩,
          Event.mkdir ("build_dirs/" ++ soft),
          Event.proc ⟨["cmake"] ++ ["-S", ("backends_src/" ++ soft)] ++ ["-B", ("build_dirs/" ++ soft)]
             ++ ["-DVTK_DIR=" ++ cwd ++ "/" ++ "build_dirs/install_paraview_v5.10.1" ++ "/lib/cmake/paraview-5.10",
                 "-DCMAKE_BUILD_TYPE=Release",
                 "-DCMAKE_INSTALL_PREFIX=" ++ "build_dirs/install_paraview_v5.10.1",
                 "-DTTK_ENABLE_KAMIKAZE=ON"], none, ProcEnv.sanitizedPrefix "build_dirs/install_paraview_v5.10.1"⟩,
          Event.proc ⟨["cmake", "--build", ("build_dirs/" ++ soft), "--target", "install",
             "--parallel"], none, ProcEnv.ambient⟩])
  else
    Recipe.plain
      ((if soft = "dipha" then
          [Event.proc ⟨["git", "apply",
             "../../patches/Dipha_0001-Print-sum-of-ranks-memory-peaks.patch"],
             some ("backends_src/" ++ soft), ProcEnv.ambient⟩]
        else if soft = "oineus" then
          [Event.proc ⟨["git", "apply",
             "../../patches/oineus_0001-New-example-file-for-simplicial-complexes.patch"],
             some ("backends_src/" ++ soft), ProcEnv.ambient⟩]
        else [])
       ++ [Event.mkdir ("build_dirs/" ++ soft),
           Event.proc ⟨["cmake", "-S", ("backends_src/" ++ soft), "-B", ("build_dirs/" ++ soft),
              "-DCMAKE_BUILD_TYPE=Release"], none, ProcEnv.ambient⟩,
           Event.proc ⟨["cmake", "--build", ("build_dirs/" ++ soft), "--parallel"], none,
              ProcEnv.ambient⟩])

/-- The process invocation of an event, when it is one. -/
def stepProc? : Event → Option Proc
  | .proc p => some p
  | _ => none

/-- Runs a step list under `check=True` semantics: the outcome of each
process is given by the oracle, and the first failing process stops the
sequence.  Returns the events that actually happened and whether all
steps succeeded.  Non-process events (directory creation, downloads,
file moves, prints) do not fail in this model. -/
def runSteps (oracle : Proc → Bool) : List Event → List Event × Bool
  | [] => ([], true)
  | e :: rest =>
    match stepProc? e with
    | some p =>
      if oracle p then
        let r := runSteps oracle rest
        (e :: r.1, r.2)
      else ([e], false)
    | none =>
      let r := runSteps oracle rest
      (e :: r.1, r.2)

/-- Outcome of one target's build. -/
inductive Outcome
  | success
  | recovered
  | fatal
deriving DecidableEq

/-- Builds one target: dispatches to its recipe and runs the steps.  A
failure under `tryRecover` prints the diagnostic and is recovered; a
failure under `plain` is fatal. -/
def buildTarget (oracle : Proc → Bool) (cwd soft : String) : List Event × Outcome :=
  match dispatch cwd soft with
  | Recipe.plain steps =>
    let r := runSteps oracle steps
    (r.1, if r.2 then Outcome.success else Outcome.fatal)
  | Recipe.tryRecover steps diag =>
    let r := runSteps oracle steps
    if r.2 then (r.1, Outcome.success)
    else (r.1 ++ [Event.msg diag], Outcome.recovered)

/-- The per-target loop of `main` (lines 117-292): prints the
`Building <soft>...` line, builds the target, and on a non-fatal outcome
prints the `Built <soft> in N seconds` line and continues; a fatal outcome
aborts the loop.  Returns the trace and the fatally failed target, if any. -/
def runPlan (oracle : Proc → Bool) (cwd : String) : List String → List Event × Option String
  | [] => ([], none)
  | soft :: rest =>
    let r := buildTarget oracle cwd soft
    if r.2 = Outcome.fatal then
      (Event.buildingLine soft :: r.1, some soft)
    else
      let r2 := runPlan oracle cwd rest
      (Event.buildingLine soft :: r.1 ++ Event.builtLine soft :: r2.1, r2.2)

/-- The core target catalog (`softs`, lines 82-87). -/
def softs_core : List String :=
  ["dipha", "gudhi", "phat", "DiscreteMorseSandwich"]

/-- The extended target catalog (`extended_softs`, lines 89-99). -/
def extended_softs : List String :=
  ["CubicalRipser_2dim", "CubicalRipser_3dim", "diamorse", "Eirene.jl",
   "oineus", "ripser", "perseus", "JavaPlex", "PersistenceCycles"]

/-- The selected plan (lines 101-107): the core catalog in subset mode,
core plus extended otherwise. -/
def softs (subset : Bool) : List String :=
  if subset then softs_core else softs_core ++ extended_softs

/-- The steps before the per-target loop (lines 110-116): the two
submodule-synchronisation calls and the creation of `build_dirs`. -/
def preSteps : List Event :=
  [Event.proc ⟨["git", "submodule", "update", "--init", "--recursive"], none,
     ProcEnv.ambient⟩,
   Event.proc ⟨["git", "submodule", "foreach", "git", "checkout", "--", "."], none,
     ProcEnv.ambient⟩,
   Event.mkdir "build_dirs"]

/-- The observable result of one run of `main`. -/
structure RunResult where
  marker : Bool
  trace : List Event
  fatalTarget : Option String
  preFailed : Bool
deriving DecidableEq

/-- Embeds `main` (lines 80-292).  `markerInit` is whether the
`.not_all_apps` marker file existed before the run; `marker` in the result
is whether it exists from plan selection onward (subset mode touches it,
full mode unlinks it with `missing_ok=True`). -/
def mainRun (subset : Bool) (oracle : Proc → Bool) (cwd : String)
    (markerInit : Bool) : RunResult :=
  let _ := markerInit
  let markerAtLoop := if subset then true else false
  let pre := runSteps oracle preSteps
  if pre.2 then
    let r := runPlan oracle cwd (softs subset)
    ⟨markerAtLoop, pre.1 ++ r.1, r.2, false⟩
  else
    ⟨markerAtLoop, pre.1, none, true⟩

/-- A fragment of filesystem state: existing directories and files. -/
structure FS where
  dirs : List String
  files : List String
deriving DecidableEq

/-- Embeds `create_dir` (lines 12-16): `os.mkdir`, which raises
`FileExistsError` when the directory already exists, with exactly that
exception caught and ignored — so on an existing directory the call
returns normally and changes nothing. -/
def create_dir (fs : FS) (d : String) : FS :=
  if d ∈ fs.dirs then fs else { fs with dirs := d :: fs.dirs }

/-- Modelled from the spec: archive extraction (`zipfile.ZipFile.extractall`
and `.extract`) is an external capability whose code is not part of this
repository; spec section 4.2 describes `extract` as idempotently creating
the destination directory and placing the archive members under it.
Pre-existing files are left in place. -/
def extract (fs : FS) (dest : String) (members : List String) : FS :=
  let fs1 := create_dir fs dest
  { fs1 with files := fs1.files ++ members.map (fun m => dest ++ "/" ++ m) }

/-- Test oracle under which every external process exits with code 0. -/
def allOk : Proc → Bool := fun _ => true

/-- The process invocations of a trace, in order. -/
def procsOf (tr : List Event) : List Proc :=
  tr.filterMap (fun e => match e with | .proc p => some p | _ => none)

/-- The reset step (`git checkout .`) of the PersistenceCycles recipe
(line 195). -/
def pcReset : Proc :=
  ⟨["git", "checkout", "."], some "backends_src/PersistenceCycles", ProcEnv.ambient⟩

/-- The reset step (`git checkout .`) of the diamorse recipe (line 143). -/
def dmReset : Proc :=
  ⟨["git", "checkout", "."], some "backends_src/diamorse", ProcEnv.ambient⟩

/-- The patch-application step of the DiscreteMorseSandwich recipe
(lines 234-242). -/
def dmsPatch : Proc :=
  ⟨["git", "apply", "../../patches/DiscreteMorseSandwich_filters.patch"],
   some "backends_src/DiscreteMorseSandwich", ProcEnv.ambient⟩

/-! General lemmas about the environment model. -/

theorem lookupEnv_popKey_self (e : Env) (k : String) :
    lookupEnv (popKey e k) k = none := by
  induction e with
  | nil => rfl
  | cons a e ih =>
    by_cases h : a.1 = k
    · simpa [popKey, List.filter_cons, h] using ih
    · simpa [popKey, List.filter_cons, h, lookupEnv] using ih

theorem lookupEnv_popKey_other (e : Env) (k k' : String) (h : k' ≠ k) :
    lookupEnv (popKey e k) k' = lookupEnv e k' := by
  induction e with
  | nil => rfl
  | cons a e ih =>
    by_cases ha : a.1 = k
    · simp [popKey, List.filter_cons, ha, lookupEnv, Ne.symm h] at ih ⊢
      exact ih
    · simp [popKey, List.filter_cons, ha, lookupEnv] at ih ⊢
      by_cases hk' : a.1 = k'
      · simp [hk']
      · simpa [hk'] using ih

theorem lookupEnv_append_of_none (e₁ e₂ : Env) (k : String)
    (h : lookupEnv e₁ k = none) :
    lookupEnv (e₁ ++ e₂) k = lookupEnv e₂ k := by
  induction e₁ with
  | nil => rfl
  | cons a e ih =>
    by_cases ha : a.1 = k
    · simp [lookupEnv, ha] at h
    · simp [lookupEnv, ha] at h ⊢
      exact ih h

/-! General lemmas about the step runner and the per-target loop. -/

theorem runSteps_mem (o : Proc → Bool) :
    ∀ (l : List Event) (e : Event), e ∈ (runSteps o l).1 → e ∈ l := by
  intro l
  induction l with
  | nil => intro e h; simp [runSteps] at h
  | cons a rest ih =>
    intro e h
    rw [runSteps] at h
    cases hsp : stepProc? a with
    | some p =>
      rw [hsp] at h
      by_cases hp : o p
      · simp [hp] at h
        rcases h with h | h
        · simp [h]
        · exact List.mem_cons_of_mem _ (ih e h)
      · simp [hp] at h
        simp [h]
    | none =>
      rw [hsp] at h
      simp at h
      rcases h with h | h
      · simp [h]
      · exact List.mem_cons_of_mem _ (ih e h)

theorem runSteps_append (o : Proc → Bool) (a b : List Event) :
    runSteps o (a ++ b)
      = if (runSteps o a).2
        then ((runSteps o a).1 ++ (runSteps o b).1, (runSteps o b).2)
        else runSteps o a := by
  induction a with
  | nil => simp [runSteps]
  | cons x a ih =>
    cases hsp : stepProc? x with
    | some p =>
      by_cases hp : o p
      · by_cases h2 : (runSteps o a).2 <;>
          simp [runSteps, hsp, hp, ih, h2]
      · simp [runSteps, hsp, hp]
    | none =>
      by_cases h2 : (runSteps o a).2 <;>
        simp [runSteps, hsp, ih, h2]

theorem buildTarget_mem (o : Proc → Bool) (cwd s : String) (e : Event)
    (h : e ∈ (buildTarget o cwd s).1) :
    e ∈ (dispatch cwd s).steps ∨ ∃ d, e = Event.msg d := by
  unfold buildTarget at h
  cases hd : dispatch cwd s with
  | plain steps =>
    rw [hd] at h
    simp at h
    exact Or.inl (runSteps_mem o steps e h)
  | tryRecover steps diag =>
    rw [hd] at h
    by_cases h2 : (runSteps o steps).2
    · simp [h2] at h
      exact Or.inl (runSteps_mem o steps e h)
    · simp [h2] at h
      rcases h with h | h
      · exact Or.inl (runSteps_mem o steps e h)
      · exact Or.inr ⟨diag, h⟩

theorem runPlan_mem (o : Proc → Bool) (cwd : String) :
    ∀ (plan : List String) (e : Event), e ∈ (runPlan o cwd plan).1 →
      ∃ s ∈ plan, e = Event.buildingLine s ∨ e = Event.builtLine s
        ∨ e ∈ (buildTarget o cwd s).1 := by
  intro plan
  induction plan with
  | nil => intro e h; simp [runPlan] at h
  | cons s rest ih =>
    intro e h
    rw [runPlan] at h
    by_cases hf : (buildTarget o cwd s).2 = Outcome.fatal
    · simp [hf] at h
      rcases h with h | h
      · exact ⟨s, by simp, Or.inl h⟩
      · exact ⟨s, by simp, Or.inr (Or.inr h)⟩
    · simp [hf] at h
      rcases h with h | h | h | h
      · exact ⟨s, by simp, Or.inl h⟩
      · exact ⟨s, by simp, Or.inr (Or.inr h)⟩
      · exact ⟨s, by simp, Or.inr (Or.inl h)⟩
      · obtain ⟨t, ht, hc⟩ := ih e h
        exact ⟨t, List.mem_cons_of_mem _ ht, hc⟩

theorem runPlan_append (o : Proc → Bool) (cwd : String) (pre l : List String)
    (h : ∀ t ∈ pre, (buildTarget o cwd t).2 ≠ Outcome.fatal) :
    runPlan o cwd (pre ++ l)
      = ((runPlan o cwd pre).1 ++ (runPlan o cwd l).1, (runPlan o cwd l).2) := by
  induction pre with
  | nil => simp [runPlan]
  | cons t pre ih =>
    have ht := h t (List.mem_cons_self t pre)
    have ih' := ih (fun t' ht' => h t' (List.mem_cons_of_mem _ ht'))
    simp [runPlan, ht, ih', List.append_assoc]

theorem runPlan_builtLine (o : Proc → Bool) (cwd : String) (l : List String)
    (h : ∀ t ∈ l, (buildTarget o cwd t).2 ≠ Outcome.fatal) :
    ∀ t ∈ l, Event.builtLine t ∈ (runPlan o cwd l).1 := by
  induction l with
  | nil => simp
  | cons s rest ih =>
    intro t ht
    have hs := h s (List.mem_cons_self s rest)
    rw [runPlan]
    simp [hs]
    rcases List.mem_cons.mp ht with rfl | ht
    · simp
    · have := ih (fun t' ht' => h t' (List.mem_cons_of_mem _ ht')) t ht
      simp [this]

theorem dispatch_steps_noLine (cwd s : String) :
    ((dispatch cwd s).steps.all (fun e => !e.isLine)) = true := by
  by_cases h1 : s = "CubicalRipser_2dim"
  · subst h1; rfl
  by_cases h2 : s = "perseus"
  · subst h2; rfl
  by_cases h3 : s = "diamorse"
  · subst h3; rfl
  by_cases h4 : s = "Eirene.jl"
  · subst h4; rfl
  by_cases h5 : s = "JavaPlex"
  · subst h5; rfl
  by_cases h6 : s = "gudhi"
  · subst h6; rfl
  by_cases h7 : s = "ripser"
  · subst h7; rfl
  by_cases h8 : s = "PersistenceCycles"
  · subst h8; rfl
  by_cases h9 : s = "DiscreteMorseSandwich"
  · subst h9; rfl
  by_cases h10 : s = "dipha"
  · subst h10
    unfold dispatch
    rw [if_neg h1, if_neg h1, if_neg h2, if_neg h3, if_neg h4, if_neg h5,
      if_neg h6, if_neg h7, if_neg h8, if_neg h9]
    rfl
  by_cases h11 : s = "oineus"
  · subst h11
    unfold dispatch
    rw [if_neg h1, if_neg h1, if_neg h2, if_neg h3, if_neg h4, if_neg h5,
      if_neg h6, if_neg h7, if_neg h8, if_neg h9]
    rfl
  unfold dispatch
  rw [if_neg h1, if_neg h1, if_neg h2, if_neg h3, if_neg h4, if_neg h5,
    if_neg h6, if_neg h7, if_neg h8, if_neg h9, if_neg h10, if_neg h11]
  rfl

theorem runPlan_buildingLine_mem (o : Proc → Bool) (cwd : String)
    (plan : List String) (t : String)
    (h : Event.buildingLine t ∈ (runPlan o cwd plan).1) : t ∈ plan := by
  obtain ⟨s, hs, hc⟩ := runPlan_mem o cwd plan _ h
  rcases hc with hc | hc | hc
  · cases hc; exact hs
  · cases hc
  · rcases buildTarget_mem o cwd s _ hc with hm | ⟨d, hd⟩
    · have := dispatch_steps_noLine cwd s
      rw [List.all_eq_true] at this
      have := this _ hm
      simp [Event.isLine] at this
    · cases hd

theorem dispatch_isRecover (cwd s : String) :
    (dispatch cwd s).isRecover = decide (s = "diamorse") := by
  by_cases h1 : s = "CubicalRipser_2dim"
  · subst h1; rfl
  by_cases h2 : s = "perseus"
  · subst h2; rfl
  by_cases h3 : s = "diamorse"
  · subst h3; rfl
  by_cases h4 : s = "Eirene.jl"
  · subst h4; rfl
  by_cases h5 : s = "JavaPlex"
  · subst h5; rfl
  by_cases h6 : s = "gudhi"
  · subst h6; rfl
  by_cases h7 : s = "ripser"
  · subst h7; rfl
  by_cases h8 : s = "PersistenceCycles"
  · subst h8; rfl
  by_cases h9 : s = "DiscreteMorseSandwich"
  · subst h9; rfl
  unfold dispatch
  rw [if_neg h1, if_neg h1, if_neg h2, if_neg h3, if_neg h4, if_neg h5,
    if_neg h6, if_neg h7, if_neg h8, if_neg h9]
  simp [Recipe.isRecover, h3]

theorem buildTarget_not_fatal_of_recover (o : Proc → Bool) (cwd s : String)
    (h : (dispatch cwd s).isRecover = true) :
    (buildTarget o cwd s).2 ≠ Outcome.fatal := by
  unfold buildTarget
  cases hd : dispatch cwd s with
  | plain steps => rw [hd] at h; simp [Recipe.isRecover] at h
  | tryRecover steps diag =>
    by_cases h2 : (runSteps o steps).2 <;> simp [h2]

theorem buildTarget_plain_snd (o : Proc → Bool) (cwd s : String) (steps : List Event)
    (hd : dispatch cwd s = Recipe.plain steps) :
    (buildTarget o cwd s).2
      = (if (runSteps o steps).2 then Outcome.success else Outcome.fatal) := by
  unfold buildTarget
  rw [hd]

theorem runSteps_append_snd_of_ok (o : Proc → Bool) (a b : List Event)
    (h : (runSteps o a).2 = true) :
    (runSteps o (a ++ b)).2 = (runSteps o b).2 := by
  rw [runSteps_append, if_pos h]

theorem runSteps_cons_proc_fail (o : Proc → Bool) (p : Proc) (rest : List Event)
    (h : o p = false) :
    (runSteps o (Event.proc p :: rest)).2 = false := by
  rw [runSteps]
  simp [stepProc?, h]

theorem buildTarget_recover_eq (o : Proc → Bool) (cwd s : String)
    (steps : List Event) (diag : String)
    (hd : dispatch cwd s = Recipe.tryRecover steps diag)
    (h : (runSteps o steps).2 = false) :
    buildTarget o cwd s = ((runSteps o steps).1 ++ [Event.msg diag], Outcome.recovered) := by
  unfold buildTarget
  rw [hd]
  simp [h]

/-- C3: for every ambient environment, `clean_env` returns a mapping in
which `PYTHONPATH`, `LD_LIBRARY_PATH` and `PV_PLUGIN_PATH` are absent
(also when they were absent from the input) and `CMAKE_PREFIX_PATH` is
bound to the empty string.  The embedding is a pure function on a copied
association list, matching `dict(os.environ)` followed by `pop`s on the
copy, so the ambient environment is never mutated by construction. -/
theorem spec_C3 (e : Env) :
    lookupEnv (clean_env e) "PYTHONPATH" = none
    ∧ lookupEnv (clean_env e) "LD_LIBRARY_PATH" = none
    ∧ lookupEnv (clean_env e) "PV_PLUGIN_PATH" = none
    ∧ lookupEnv (clean_env e) "CMAKE_PREFIX_PATH" = some "" := by
  unfold clean_env setKey
  refine ⟨?_, ?_, ?_, ?_⟩
  · rw [lookupEnv_append_of_none _ _ _ (by
      rw [lookupEnv_popKey_other _ _ _ (by decide),
        lookupEnv_popKey_other _ _ _ (by decide),
        lookupEnv_popKey_other _ _ _ (by decide), lookupEnv_popKey_self])]
    simp [lookupEnv]
  · rw [lookupEnv_append_of_none _ _ _ (by
      rw [lookupEnv_popKey_other _ _ _ (by decide),
        lookupEnv_popKey_other _ _ _ (by decide), lookupEnv_popKey_self])]
    simp [lookupEnv]
  · rw [lookupEnv_append_of_none _ _ _ (by
      rw [lookupEnv_popKey_other _ _ _ (by decide), lookupEnv_popKey_self])]
    simp [lookupEnv]
  · rw [lookupEnv_append_of_none _ _ _ (lookupEnv_popKey_self _ _)]
    simp [lookupEnv]

/-- C3 witness: the contract evaluated on a concrete ambient environment
that binds all three forbidden keys. -/
theorem spec_C3_witness :
    lookupEnv (clean_env [("PYTHONPATH", "/p"), ("LD_LIBRARY_PATH", "/l"),
        ("PV_PLUGIN_PATH", "/v"), ("HOME", "/home/u")]) "PYTHONPATH" = none
    ∧ lookupEnv (clean_env [("PYTHONPATH", "/p"), ("LD_LIBRARY_PATH", "/l"),
        ("PV_PLUGIN_PATH", "/v"), ("HOME", "/home/u")]) "LD_LIBRARY_PATH" = none
    ∧ lookupEnv (clean_env [("PYTHONPATH", "/p"), ("LD_LIBRARY_PATH", "/l"),
        ("PV_PLUGIN_PATH", "/v"), ("HOME", "/home/u")]) "PV_PLUGIN_PATH" = none
    ∧ lookupEnv (clean_env [("PYTHONPATH", "/p"), ("LD_LIBRARY_PATH", "/l"),
        ("PV_PLUGIN_PATH", "/v"), ("HOME", "/home/u")]) "CMAKE_PREFIX_PATH" = some "" :=
  spec_C3 [("PYTHONPATH", "/p"), ("LD_LIBRARY_PATH", "/l"),
    ("PV_PLUGIN_PATH", "/v"), ("HOME", "/home/u")]

/-- C1: for every call to `build_paraview`, whatever the version tag and
the extra options, the second configure invocation (`cmake builddir`)
names exactly the build directory the first configure invocation was
issued against (`-B builddir`), and passes nothing else. -/
theorem spec_C1 (pfx vers : String) (opts : List String) :
    ∃ builddir,
      (build_paraview pfx vers opts).get? 2
        = some (Event.proc ⟨["cmake"] ++ ["-S", "backends_src/paraview-ttk"]
            ++ ["-B", builddir]
            ++ ["-DCMAKE_BUILD_TYPE=Release", "-DCMAKE_INSTALL_PREFIX=" ++ pfx]
            ++ opts, none, ProcEnv.sanitized⟩)
      ∧ (build_paraview pfx vers opts).get? 3
        = some (Event.proc ⟨["cmake", builddir], none, ProcEnv.ambient⟩) :=
  ⟨"build_dirs/paraview_" ++ vers, rfl, rfl⟩

/-- C6: the core-only plan is a strict, order-preserving subset of the
full plan, and at the start of the per-target loop the `.not_all_apps`
marker exists if and only if the run is in subset mode, whatever its
prior state (a full-mode run unlinks it with `missing_ok=True`). -/
theorem spec_C6 :
    List.Sublist (softs true) (softs false)
    ∧ softs true ≠ softs false
    ∧ (∀ (subset : Bool) (o : Proc → Bool) (cwd : String) (markerInit : Bool),
        (mainRun subset o cwd markerInit).marker = subset) := by
  refine ⟨List.sublist_append_left _ _, by decide, ?_⟩
  intro subset o cwd init
  unfold mainRun
  cases h : (runSteps o preSteps).2 <;> cases subset <;> simp [h]

/-- C9: no target is ever dispatched to the body of the second
`soft == "CubicalRipser_2dim"` branch; `CubicalRipser_2dim` is always
handled by the first branch (plain `make` in its source directory) and
`CubicalRipser_3dim` falls through to the default configure-build
recipe. -/
theorem spec_C9 :
    (∀ cwd s, dispatch cwd s ≠ Recipe.plain (cubicalRipserSecondBody ("build_dirs/" ++ s)))
    ∧ (∀ cwd, dispatch cwd "CubicalRipser_2dim"
        = Recipe.plain (cubicalRipserFirstBody "backends_src/CubicalRipser_2dim"))
    ∧ (∀ cwd, dispatch cwd "CubicalRipser_3dim"
        = Recipe.plain
            [Event.mkdir "build_dirs/CubicalRipser_3dim",
             Event.proc ⟨["cmake", "-S", "backends_src/CubicalRipser_3dim", "-B",
                "build_dirs/CubicalRipser_3dim", "-DCMAKE_BUILD_TYPE=Release"], none,
                ProcEnv.ambient⟩,
             Event.proc ⟨["cmake", "--build", "build_dirs/CubicalRipser_3dim",
                "--parallel"], none, ProcEnv.ambient⟩]) := by
  refine ⟨?_, fun cwd => rfl, fun cwd => rfl⟩
  intro cwd s
  by_cases h1 : s = "CubicalRipser_2dim"
  · subst h1
    have hclosed : dispatch "" "CubicalRipser_2dim"
        ≠ Recipe.plain (cubicalRipserSecondBody ("build_dirs/" ++ "CubicalRipser_2dim")) := by
      decide
    exact hclosed
  by_cases h2 : s = "perseus"
  · subst h2
    have hclosed : dispatch "" "perseus"
        ≠ Recipe.plain (cubicalRipserSecondBody ("build_dirs/" ++ "perseus")) := by decide
    exact hclosed
  by_cases h3 : s = "diamorse"
  · subst h3
    have hclosed : dispatch "" "diamorse"
        ≠ Recipe.plain (cubicalRipserSecondBody ("build_dirs/" ++ "diamorse")) := by decide
    exact hclosed
  by_cases h4 : s = "Eirene.jl"
  · subst h4
    have hclosed : dispatch "" "Eirene.jl"
        ≠ Recipe.plain (cubicalRipserSecondBody ("build_dirs/" ++ "Eirene.jl")) := by decide
    exact hclosed
  by_cases h5 : s = "JavaPlex"
  · subst h5
    have hclosed : dispatch "" "JavaPlex"
        ≠ Recipe.plain (cubicalRipserSecondBody ("build_dirs/" ++ "JavaPlex")) := by decide
    exact hclosed
  by_cases h6 : s = "gudhi"
  · subst h6
    have hclosed : dispatch "" "gudhi"
        ≠ Recipe.plain (cubicalRipserSecondBody ("build_dirs/" ++ "gudhi")) := by decide
    exact hclosed
  by_cases h7 : s = "ripser"
  · subst h7
    have hclosed : dispatch "" "ripser"
        ≠ Recipe.plain (cubicalRipserSecondBody ("build_dirs/" ++ "ripser")) := by decide
    exact hclosed
  by_cases h8 : s = "PersistenceCycles"
  · subst h8
    intro hc
    have h0 : (dispatch cwd "PersistenceCycles").steps.length = 10 := rfl
    rw [hc] at h0
    exact absurd h0 (by decide)
  by_cases h9 : s = "DiscreteMorseSandwich"
  · subst h9
    intro hc
    have h0 : (dispatch cwd "DiscreteMorseSandwich").steps.length = 9 := rfl
    rw [hc] at h0
    exact absurd h0 (by decide)
  by_cases h10 : s = "dipha"
  · subst h10
    have hclosed : dispatch "" "dipha"
        ≠ Recipe.plain (cubicalRipserSecondBody ("build_dirs/" ++ "dipha")) := by decide
    exact hclosed
  by_cases h11 : s = "oineus"
  · subst h11
    have hclosed : dispatch "" "oineus"
        ≠ Recipe.plain (cubicalRipserSecondBody ("build_dirs/" ++ "oineus")) := by decide
    exact hclosed
  unfold dispatch
  rw [if_neg h1, if_neg h1, if_neg h2, if_neg h3, if_neg h4, if_neg h5,
    if_neg h6, if_neg h7, if_neg h8, if_neg h9, if_neg h10, if_neg h11]
  simp [cubicalRipserSecondBody]

/-- C8: `create_dir` on an already-existing directory succeeds and is the
identity; after `create_dir` the directory exists; extraction into an
already-existing destination directory does not fail (it is total) and
never removes pre-existing files from the filesystem. -/
theorem spec_C8 :
    (∀ (fs : FS) (d : String), d ∈ fs.dirs → create_dir fs d = fs)
    ∧ (∀ (fs : FS) (d : String), d ∈ (create_dir fs d).dirs)
    ∧ (∀ (fs : FS) (dest : String) (members : List String) (f : String),
        f ∈ fs.files → f ∈ (extract fs dest members).files)
    ∧ (∀ (fs : FS) (dest : String) (members : List String),
        dest ∈ (extract fs dest members).dirs) := by
  refine ⟨?_, ?_, ?_, ?_⟩
  · intro fs d h
    simp [create_dir, h]
  · intro fs d
    by_cases h : d ∈ fs.dirs <;> simp [create_dir, h]
  · intro fs dest members f h
    by_cases hd : dest ∈ fs.dirs <;> simp [extract, create_dir, hd, h]
  · intro fs dest members
    by_cases hd : dest ∈ fs.dirs <;> simp [extract, create_dir, hd]

/-- C8 witness: the three guarded facts instantiated on a concrete
filesystem whose destination directory already exists and already holds
an unrelated file. -/
theorem spec_C8_witness :
    ("perseus" ∈ (FS.mk ["perseus"] ["old.txt"]).dirs
      ∧ create_dir (FS.mk ["perseus"] ["old.txt"]) "perseus"
          = FS.mk ["perseus"] ["old.txt"])
    ∧ ("old.txt" ∈ (FS.mk ["perseus"] ["old.txt"]).files
      ∧ "old.txt" ∈ (extract (FS.mk ["perseus"] ["old.txt"]) "perseus" ["m.txt"]).files) :=
  ⟨⟨by decide, spec_C8.1 _ _ (by decide)⟩,
   ⟨by decide, spec_C8.2.2.1 _ _ ["m.txt"] _ (by decide)⟩⟩

/-- C2 counterexample: the claim that every external process is started
with the sanitized environment is false — in a full-mode run where every
process succeeds, the very first invocation (`git submodule update`) is
started with the ambient environment. -/
theorem spec_C2_cex :
    ¬ (∀ p : Proc, Event.proc p ∈ (mainRun false allOk "/cwd" false).trace →
        p.env ≠ ProcEnv.ambient) := by
  intro h
  exact h ⟨["git", "submodule", "update", "--init", "--recursive"], none,
    ProcEnv.ambient⟩ (by decide) rfl

/-- C2 (amended): in a complete full-mode run, exactly four process
invocations are started with a non-ambient (sanitized) environment — the
first configure of each of the two `build_paraview` calls, and the TTK
configure steps of the DiscreteMorseSandwich and PersistenceCycles
recipes; every other process (git, make, julia, javac, the second
configure, all build/install steps) inherits the ambient environment. -/
theorem spec_C2_amended :
    (procsOf (mainRun false allOk "/cwd" false).trace).filter
        (fun p => p.env ≠ ProcEnv.ambient)
      = [⟨["cmake", "-S", "backends_src/paraview-ttk", "-B", "build_dirs/paraview_v5.10.1",
            "-DCMAKE_BUILD_TYPE=Release",
            "-DCMAKE_INSTALL_PREFIX=build_dirs/install_paraview_v5.10.1",
            "-DPARAVIEW_USE_QT=OFF", "-DVTK_Group_ENABLE_Rendering=NO"], none,
            ProcEnv.sanitized⟩,
         ⟨["cmake", "-S", "backends_src/DiscreteMorseSandwich", "-B",
            "build_dirs/DiscreteMorseSandwich",
            "-DVTK_DIR=/cwd/build_dirs/install_paraview_v5.10.1/lib/cmake/paraview-5.10",
            "-DCMAKE_BUILD_TYPE=Release",
            "-DCMAKE_INSTALL_PREFIX=build_dirs/install_paraview_v5.10.1",
            "-DTTK_ENABLE_KAMIKAZE=ON"], none,
            ProcEnv.sanitizedPrefix "build_dirs/install_paraview_v5.10.1"⟩,
         ⟨["cmake", "-S", "backends_src/paraview-ttk", "-B", "build_dirs/paraview_v5.6.1",
            "-DCMAKE_BUILD_TYPE=Release",
            "-DCMAKE_INSTALL_PREFIX=build_dirs/install_paraview_v5.6.1",
            "-DPARAVIEW_BUILD_QT_GUI=OFF", "-DVTK_Group_ParaViewRendering=OFF"], none,
            ProcEnv.sanitized⟩,
         ⟨["cmake", "-S", "backends_src/PersistenceCycles/ttk-0.9.7", "-B",
            "build_dirs/PersistenceCycles",
            "-DVTK_DIR=/cwd/build_dirs/install_paraview_v5.6.1/lib/cmake/paraview-5.6",
            "-DCMAKE_BUILD_TYPE=Release",
            "-DCMAKE_INSTALL_PREFIX=build_dirs/install_paraview_v5.6.1",
            "-DTTK_ENABLE_KAMIKAZE=ON"], none,
            ProcEnv.sanitizedPrefix "build_dirs/install_paraview_v5.6.1"⟩] := by
  decide

/-- C4: diamorse is the unique target whose recipe catches a non-zero
exit; when its steps fail, the diagnostic naming the likely missing
prerequisites is printed, the target's outcome is `recovered`, and the
per-target loop continues to the next planned target (the rest of the
run is exactly what it would be without the diamorse entry). -/
theorem spec_C4 :
    (∀ cwd s, ((dispatch cwd s).isRecover = true) ↔ s = "diamorse")
    ∧ (∀ (o : Proc → Bool) (cwd : String) (rest : List String),
        runPlan o cwd ("diamorse" :: rest)
          = (Event.buildingLine "diamorse" :: (buildTarget o cwd "diamorse").1
              ++ Event.builtLine "diamorse" :: (runPlan o cwd rest).1,
             (runPlan o cwd rest).2))
    ∧ (∀ (o : Proc → Bool) (cwd : String),
        (runSteps o (dispatch cwd "diamorse").steps).2 = false →
        buildTarget o cwd "diamorse"
          = ((runSteps o (dispatch cwd "diamorse").steps).1
              ++ [Event.msg "Missing cython, python2-numpy to build diamorse"],
             Outcome.recovered)) := by
  refine ⟨?_, ?_, ?_⟩
  · intro cwd s
    rw [dispatch_isRecover]
    simp
  · intro o cwd rest
    have hnf := buildTarget_not_fatal_of_recover o cwd "diamorse" rfl
    simp [runPlan, hnf]
  · intro o cwd h
    exact buildTarget_recover_eq o cwd "diamorse" (dispatch cwd "diamorse").steps
      "Missing cython, python2-numpy to build diamorse" rfl h

/-- C4 witness: under an oracle failing every process, diamorse's steps
fail, the diagnostic is printed and the outcome is `recovered`. -/
theorem spec_C4_witness :
    (runSteps (fun _ => false) (dispatch "/cwd" "diamorse").steps).2 = false
    ∧ buildTarget (fun _ => false) "/cwd" "diamorse"
        = ((runSteps (fun _ => false) (dispatch "/cwd" "diamorse").steps).1
            ++ [Event.msg "Missing cython, python2-numpy to build diamorse"],
           Outcome.recovered) :=
  ⟨by decide, spec_C4.2.2 (fun _ => false) "/cwd" (by decide)⟩

/-- C5: a fatal failure of any target other than diamorse stops the run
at that target: the loop's failure result names it, every target already
completed has its `Built` line in the trace, and no later target's
`Building` line is ever printed. -/
theorem spec_C5 (o : Proc → Bool) (cwd soft : String) (pre rest : List String)
    (hsoft : soft ≠ "diamorse")
    (hfatal : (buildTarget o cwd soft).2 = Outcome.fatal)
    (hpre : ∀ t ∈ pre, (buildTarget o cwd t).2 ≠ Outcome.fatal) :
    (runPlan o cwd (pre ++ soft :: rest)).2 = some soft
    ∧ (∀ t ∈ pre, Event.builtLine t ∈ (runPlan o cwd (pre ++ soft :: rest)).1)
    ∧ (∀ t ∈ rest, t ∉ pre → t ≠ soft →
        Event.buildingLine t ∉ (runPlan o cwd (pre ++ soft :: rest)).1) := by
  have happ := runPlan_append o cwd pre (soft :: rest) hpre
  have hcons : runPlan o cwd (soft :: rest)
      = (Event.buildingLine soft :: (buildTarget o cwd soft).1, some soft) := by
    simp [runPlan, hfatal]
  refine ⟨?_, ?_, ?_⟩
  · rw [happ, hcons]
  · intro t ht
    rw [happ]
    exact List.mem_append_left _ (runPlan_builtLine o cwd pre hpre t ht)
  · intro t ht htp hts hmem
    rw [happ, hcons] at hmem
    rcases List.mem_append.mp hmem with hm | hm
    · exact htp (runPlan_buildingLine_mem o cwd pre t hm)
    · rcases List.mem_cons.mp hm with hm | hm
      · simp at hm
        exact hts hm
      · rcases buildTarget_mem o cwd soft _ hm with hm2 | ⟨d, hd⟩
        · have hnl := dispatch_steps_noLine cwd soft
          rw [List.all_eq_true] at hnl
          have := hnl _ hm2
          simp [Event.isLine] at this
        · cases hd

/-- C5 witness: the spec scenario — a full-mode plan where the
DiscreteMorseSandwich patch step fails.  The run aborts at
DiscreteMorseSandwich and no extended target is reached. -/
theorem spec_C5_witness :
    ("DiscreteMorseSandwich" ≠ "diamorse"
      ∧ (buildTarget (fun p => !(decide (p = dmsPatch))) "/cwd"
          "DiscreteMorseSandwich").2 = Outcome.fatal
      ∧ (∀ t ∈ ["dipha", "gudhi", "phat"],
          (buildTarget (fun p => !(decide (p = dmsPatch))) "/cwd" t).2 ≠ Outcome.fatal))
    ∧ (runPlan (fun p => !(decide (p = dmsPatch))) "/cwd"
        (["dipha", "gudhi", "phat"] ++ "DiscreteMorseSandwich" :: extended_softs)).2
        = some "DiscreteMorseSandwich" := by
  refine ⟨⟨by decide, by decide, by decide⟩, ?_⟩
  exact (spec_C5 (fun p => !(decide (p = dmsPatch))) "/cwd" "DiscreteMorseSandwich"
    ["dipha", "gudhi", "phat"] extended_softs (by decide) (by decide) (by decide)).1

/-- C10: a subset-mode run performs no artifact-fetcher operation (no
download, no extraction), whatever the oracle, because the core catalog
contains neither `perseus` nor `JavaPlex`. -/
theorem spec_C10 :
    (∀ (o : Proc → Bool) (cwd : String) (init : Bool),
      ((mainRun true o cwd init).trace.all (fun e => !e.isFetch)) = true)
    ∧ "perseus" ∉ softs true ∧ "JavaPlex" ∉ softs true := by
  refine ⟨?_, by decide, by decide⟩
  intro o cwd init
  rw [List.all_eq_true]
  intro e he
  unfold mainRun at he
  by_cases hp : (runSteps o preSteps).2
  · simp [hp] at he
    rcases he with he | he
    · have hm := runSteps_mem o preSteps e he
      fin_cases hm <;> rfl
    · obtain ⟨s, hs, hc⟩ := runPlan_mem o cwd _ e he
      rcases hc with rfl | rfl | hc
      · rfl
      · rfl
      · rcases buildTarget_mem o cwd s e hc with hm | ⟨d, rfl⟩
        · have hs2 : s ∈ softs_core := hs
          have hff : ((dispatch cwd s).steps.all (fun e => !e.isFetch)) = true := by
            fin_cases hs2 <;> rfl
          rw [List.all_eq_true] at hff
          exact hff e hm
        · rfl
  · simp [hp] at he
    have hm := runSteps_mem o preSteps e he
    fin_cases hm <;> rfl

/-- C7 counterexample: the claim that a failing reset step is always
non-fatal is false — under an oracle that fails exactly the
PersistenceCycles reset (`git checkout .`), that target's build runs up
to the reset step and ends fatal, and the run aborts at
PersistenceCycles. -/
theorem spec_C7_cex :
    (buildTarget (fun p => !(decide (p = pcReset))) "/cwd" "PersistenceCycles").2
        = Outcome.fatal
    ∧ (buildTarget (fun p => !(decide (p = pcReset))) "/cwd"
        "PersistenceCycles").1.getLast? = some (Event.proc pcReset)
    ∧ (runPlan (fun p => !(decide (p = pcReset))) "/cwd" ["PersistenceCycles"]).2
        = some "PersistenceCycles" := by
  decide

/-- C7 (amended): only diamorse's reset failure is non-fatal, and it is
neither silent nor skipped-over: the diagnostic is printed and the rest
of that target's build (patching, make) is abandoned, while the run
continues.  For PersistenceCycles, the other target that resets before
patching, a reset failure (reached after a successful ParaView build) is
fatal. -/
theorem spec_C7_amended (o : Proc → Bool) (cwd : String) :
    (o dmReset = false →
      buildTarget o cwd "diamorse"
        = ([Event.proc dmReset,
            Event.msg "Missing cython, python2-numpy to build diamorse"],
           Outcome.recovered))
    ∧ ((runSteps o (build_paraview "build_dirs/install_paraview_v5.6.1" "v5.6.1"
          ["-DPARAVIEW_BUILD_QT_GUI=OFF", "-DVTK_Group_ParaViewRendering=OFF"])).2 = true →
       o pcReset = false →
       (buildTarget o cwd "PersistenceCycles").2 = Outcome.fatal) := by
  constructor
  · intro h
    have hd2 : dispatch cwd "diamorse"
        = Recipe.tryRecover
            [Event.proc dmReset,
             Event.proc ⟨["git", "apply",
                "../../patches/diamorse_0001-Makefile-Target-Python2.patch",
                "../../patches/diamorse_0002-persistence.py-Add-Gudhi-format-output.patch"],
                some "backends_src/diamorse", ProcEnv.ambient⟩,
             Event.proc ⟨["make", "all"], some "backends_src/diamorse", ProcEnv.ambient⟩]
            "Missing cython, python2-numpy to build diamorse" := rfl
    unfold buildTarget
    rw [hd2]
    simp [runSteps, stepProc?, h]
  · intro h1 h2
    have hd : dispatch cwd "PersistenceCycles"
        = Recipe.plain (build_paraview "build_dirs/install_paraview_v5.6.1" "v5.6.1"
            ["-DPARAVIEW_BUILD_QT_GUI=OFF", "-DVTK_Group_ParaViewRendering=OFF"]
          ++ [Event.proc pcReset,
              Event.proc ⟨["git", "apply",
                 "../../patches/PersistenceCycles_0001-Fix-Wreturn-type.patch",
                 "../../patches/PersistenceCycles_0003-Output-Diagram-in-Gudhi-format.patch"],
                 some "backends_src/PersistenceCycles", ProcEnv.ambient⟩,
              Event.mkdir "build_dirs/PersistenceCycles",
              Event.proc ⟨["cmake"] ++ ["-S", "backends_src/PersistenceCycles/ttk-0.9.7"]
                 ++ ["-B", "build_dirs/PersistenceCycles"]
                 ++ ["-DVTK_DIR=" ++ cwd ++ "/" ++ "build_dirs/install_paraview_v5.6.1"
                      ++ "/lib/cmake/paraview-5.6",
                     "-DCMAKE_BUILD_TYPE=Release",
                     "-DCMAKE_INSTALL_PREFIX=" ++ "build_dirs/install_paraview_v5.6.1",
                     "-DTTK_ENABLE_KAMIKAZE=ON"], none,
                 ProcEnv.sanitizedPrefix "build_dirs/install_paraview_v5.6.1"⟩,
              Event.proc ⟨["cmake", "--build", "build_dirs/PersistenceCycles",
                 "--target", "install", "--parallel"], none, ProcEnv.ambient⟩]) := rfl
    rw [buildTarget_plain_snd o cwd "PersistenceCycles" _ hd]
    rw [runSteps_append_snd_of_ok o _ _ h1]
    rw [runSteps_cons_proc_fail o pcReset _ h2]
    rfl

/-- C7 witness: both amended facts at concrete failing oracles — an
oracle failing only the diamorse reset, and an oracle failing only the
PersistenceCycles reset. -/
theorem spec_C7_witness :
    ((fun p => !(decide (p = dmReset))) dmReset = false
      ∧ buildTarget (fun p => !(decide (p = dmReset))) "/cwd" "diamorse"
          = ([Event.proc dmReset,
              Event.msg "Missing cython, python2-numpy to build diamorse"],
             Outcome.recovered))
    ∧ ((runSteps (fun p => !(decide (p = pcReset)))
          (build_paraview "build_dirs/install_paraview_v5.6.1" "v5.6.1"
            ["-DPARAVIEW_BUILD_QT_GUI=OFF", "-DVTK_Group_ParaViewRendering=OFF"])).2 = true
      ∧ (fun p => !(decide (p = pcReset))) pcReset = false
      ∧ (buildTarget (fun p => !(decide (p = pcReset))) "/cwd" "PersistenceCycles").2
          = Outcome.fatal) :=
  ⟨⟨by decide, (spec_C7_amended (fun p => !(decide (p = dmReset))) "/cwd").1 (by decide)⟩,
   ⟨by decide, by decide,
    (spec_C7_amended (fun p => !(decide (p = pcReset))) "/cwd").2 (by decide) (by decide)⟩⟩

end BuildSoftware

